import Mathlib

/-!
Verification of the Job Manager of the dataset-viewer worker
(src/services/worker/src/worker/job_manager.py), as a shallow embedding.

The cache store is an association list keyed by (kind, dataset, config, split);
the job runner (an external collaborator) is modelled by oracles giving the
outcome of pre_compute, get_parallel_job_runner and compute; exceptions are
values of an inductive type Exn mirroring the except clauses of process().
Executed hook calls, compute calls and cache upserts are recorded in an event
trace so that claims about call ordering can be stated.
-/

/-- Identifies a computation target: dataset, git revision, optional config,
optional split (libcommon JobParams). -/
structure JobParams where
  dataset : String
  revision : String
  config : Option String
  split : Option String
deriving DecidableEq, Repr

/-- Cache key: (artifact kind, dataset, config, split). The revision is a field
of the entry, not part of the key. -/
structure CacheKey where
  kind : String
  dataset : String
  config : Option String
  split : Option String
deriving DecidableEq, Repr

/-- Serialized content payload of a cache entry (the model keeps it abstract as
a string; orjson serialization length is passed as a function where needed). -/
abbrev Content := String

/-- Identifies a cached artifact (used for provenance in cascaded errors). -/
structure ArtifactId where
  kind : String
  dataset : String
  config : Option String
  split : Option String
deriving DecidableEq, Repr

/-- Structured error details stored in a cache entry: either plain details, or
details carrying copied_from_artifact provenance naming a parent artifact. -/
inductive Details where
  | plain (s : String)
  | withProvenance (base : String) (copied_from_artifact : ArtifactId)
deriving DecidableEq, Repr

/-- A cache entry as written by upsert_response_params (libcommon simple_cache):
content, HTTP status, optional error code, optional details, producing job
runner version, dataset git revision, completion progress. -/
structure CacheEntry where
  content : Content
  http_status : Nat
  error_code : Option String
  details : Option Details
  job_runner_version : Nat
  dataset_git_revision : Option String
  progress : Option Rat
deriving DecidableEq, Repr

/-- The cache store: at most one entry per key, maintained by upsert. -/
abbrev CacheStore := List (CacheKey × CacheEntry)

/-- Lookup of the entry for a key (get_response_without_content_params returns
it; absence corresponds to the DoesNotExist exception). -/
def lookupCache (s : CacheStore) (k : CacheKey) : Option CacheEntry :=
  match s with
  | [] => none
  | (k2, e) :: rest => if k2 = k then some e else lookupCache rest k

/-- Removal of all entries for a key (helper for upsert). -/
def eraseKey (s : CacheStore) (k : CacheKey) : CacheStore :=
  match s with
  | [] => []
  | (k2, e) :: rest => if k2 = k then eraseKey rest k else (k2, e) :: eraseKey rest k

/-- Upsert: a new write fully replaces the prior entry for that key. -/
def upsertCache (s : CacheStore) (k : CacheKey) (e : CacheEntry) : CacheStore :=
  (k, e) :: eraseKey s k

/-- The cache key addressed by a kind and the job params. -/
def keyOf (kind : String) (p : JobParams) : CacheKey :=
  { kind := kind, dataset := p.dataset, config := p.config, split := p.split }

theorem lookupCache_upsert_self (s : CacheStore) (k : CacheKey) (e : CacheEntry) :
    lookupCache (upsertCache s k e) k = some e := by
  simp [lookupCache, upsertCache]

/-- Data of a recognized domain error (libcommon CustomError): stable code,
HTTP-like status, response content, response-with-cause used as details. -/
structure CustomErrorData where
  code : String
  status_code : Nat
  response : Content
  response_with_cause : String
deriving DecidableEq, Repr

/-- Data carried by a CachedArtifactError (libcommon simple_cache): the parent
artifact identification and its cached error content, status, code, details. -/
structure CachedArtifactData where
  artifact : ArtifactId
  content : Content
  http_status : Nat
  error_code : Option String
  details : String
deriving DecidableEq, Repr

/-- Modelled from the spec: libcommon CachedArtifactError.enhanced_details adds
a copied_from_artifact item identifying the parent artifact that was the true
source of the error, on top of the parent entry details. -/
def enhanced_details (d : CachedArtifactData) : Details :=
  Details.withProvenance d.details d.artifact

/-- The exceptions process() distinguishes, mirroring its except clauses:
dataset not found, cached artifact error (cascade from a parent), a recognized
CustomError, or any other exception. -/
inductive Exn where
  | datasetNotFound
  | cachedArtifact (d : CachedArtifactData)
  | custom (e : CustomErrorData)
  | other (msg : String)
deriving DecidableEq, Repr

/-- Modelled from the spec: libcommon UnexpectedError wraps an unrecognized
failure under the generic UnexpectedError code with status 500, carrying the
original cause for diagnostics. -/
def UnexpectedError (msg : String) : CustomErrorData :=
  { code := "UnexpectedError"
    status_code := 500
    response := "Unexpected error: " ++ msg
    response_with_cause := "Unexpected error (with cause): " ++ msg }

/-- Message raised with TooBigContentError in process() (source, lines 158-161),
carrying the configured limit. -/
def tooBigContentMessage (content_max_bytes : Nat) : String :=
  "The computed response content exceeds the supported size in bytes (" ++
    toString content_max_bytes ++ ")."

/-- Modelled from the spec: libcommon TooBigContentError is a recognized domain
error with the content-too-large code and status 500; the message comes from
the raise site in the source. -/
def TooBigContentErrorData (content_max_bytes : Nat) : CustomErrorData :=
  { code := "TooBigContentError"
    status_code := 500
    response := tooBigContentMessage content_max_bytes
    response_with_cause := tooBigContentMessage content_max_bytes }

/-- Modelled from the spec: libcommon ResponseAlreadyComputedError is a
recognized domain error (a CustomError subclass); the message comes from the
raise site in the source (lines 133-136). -/
def ResponseAlreadyComputedErrorData (parallel_cache_kind : String) : CustomErrorData :=
  { code := "ResponseAlreadyComputedError"
    status_code := 500
    response := "Response has already been computed and stored in cache kind: " ++
      parallel_cache_kind ++ ". Compute will be skipped."
    response_with_cause := "Response has already been computed and stored in cache kind: " ++
      parallel_cache_kind ++ ". Compute will be skipped." }

/-- Modelled from the spec: libcommon JobManagerCrashedError, the recognized
domain error synthesized for a job whose process died. -/
def JobManagerCrashedErrorData (msg : String) : CustomErrorData :=
  { code := "JobManagerCrashedError"
    status_code := 500
    response := msg
    response_with_cause := msg }

/-- Modelled from the spec: libcommon JobManagerExceededMaximumDurationError,
the recognized domain error synthesized for a job that ran past its allotted
time. -/
def JobManagerExceededMaximumDurationErrorData (msg : String) : CustomErrorData :=
  { code := "JobManagerExceededMaximumDurationError"
    status_code := 500
    response := msg
    response_with_cause := msg }

/-- The result of job_runner.compute(): a content payload and a progress. -/
structure JobResult where
  content : Content
  progress : Option Rat
deriving DecidableEq, Repr

/-- The parallel job runner descriptor returned by get_parallel_job_runner:
its job type (used as cache kind) and its job runner version. -/
structure ParallelRunnerInfo where
  job_type : String
  job_runner_version : Nat
deriving DecidableEq, Repr

/-- The job runner collaborator, modelled by the outcomes of its calls: what
pre_compute does, the optional parallel runner descriptor, what compute does,
and the job runner version. post_compute is modelled as releasing without
failing (spec section 4.1: scoped release). -/
structure JobRunnerL where
  pre_compute : Except Exn Unit
  get_parallel_job_runner : Option ParallelRunnerInfo
  compute : Except Exn JobResult
  get_job_runner_version : Nat

/-- Trace events recorded while a job is processed. -/
inductive Event where
  | preCompute
  | computeCall
  | postCompute
  | upsert (kind : String) (p : JobParams) (e : CacheEntry)
  | backfillCall
deriving DecidableEq, Repr

/-- Whether an event is a cache upsert. -/
def Event.isUpsert : Event → Bool
  | Event.upsert _ _ _ => true
  | _ => false

/-- JobManager.raise_if_parallel_response_exists: reads the parallel cache kind
entry for the same job params (DoesNotExist is caught and ignored); if it is OK
with the expected parallel version, progress 1.0 and the same revision, raises
ResponseAlreadyComputedError. -/
def JobManager.raise_if_parallel_response_exists (p : JobParams) (store : CacheStore)
    (parallel_cache_kind : String) (parallel_job_version : Nat) : Except Exn Unit :=
  match lookupCache store (keyOf parallel_cache_kind p) with
  | none => Except.ok ()
  | some existing_response =>
    if existing_response.http_status = 200 ∧
        existing_response.job_runner_version = parallel_job_version ∧
        existing_response.progress = some 1 ∧
        existing_response.dataset_git_revision = some p.revision then
      Except.error (Exn.custom (ResponseAlreadyComputedErrorData parallel_cache_kind))
    else
      Except.ok ()

/-- The parallel short-circuit step of process(): nothing when there is no
parallel job runner, otherwise the raise_if_parallel_response_exists check. -/
def checkParallel (p : JobParams) (store : CacheStore) :
    Option ParallelRunnerInfo → Except Exn Unit
  | none => Except.ok ()
  | some info =>
    JobManager.raise_if_parallel_response_exists p store info.job_type info.job_runner_version

/-- The body of the inner try of process(): pre_compute, the parallel
short-circuit, compute, and the content size validation, with the recorded
events (the compute-call event is recorded as soon as compute is invoked). -/
def innerTry (jr : JobRunnerL) (p : JobParams) (content_max_bytes : Nat)
    (serLen : Content → Nat) (store : CacheStore) : Except Exn JobResult × List Event :=
  match jr.pre_compute with
  | Except.error e => (Except.error e, [Event.preCompute])
  | Except.ok _ =>
    match checkParallel p store jr.get_parallel_job_runner with
    | Except.error e => (Except.error e, [Event.preCompute])
    | Except.ok _ =>
      match jr.compute with
      | Except.error e => (Except.error e, [Event.preCompute, Event.computeCall])
      | Except.ok job_result =>
        if serLen job_result.content > content_max_bytes then
          (Except.error (Exn.custom (TooBigContentErrorData content_max_bytes)),
            [Event.preCompute, Event.computeCall])
        else
          (Except.ok job_result, [Event.preCompute, Event.computeCall])

/-- The cache entry upserted on success: status OK, computed content, the job
runner version, the job revision, and the computed progress. -/
def okEntry (jr : JobRunnerL) (p : JobParams) (res : JobResult) : CacheEntry :=
  { content := res.content
    http_status := 200
    error_code := none
    details := none
    job_runner_version := jr.get_job_runner_version
    dataset_git_revision := some p.revision
    progress := res.progress }

/-- The cache entry upserted for a recognized or wrapped error: the error
response as content, its status and code, its response-with-cause as details,
the job runner version and the job revision, no progress. -/
def errorEntry (version : Nat) (p : JobParams) (e : CustomErrorData) : CacheEntry :=
  { content := e.response
    http_status := e.status_code
    error_code := some e.code
    details := some (Details.plain e.response_with_cause)
    job_runner_version := version
    dataset_git_revision := some p.revision
    progress := none }

/-- The cache entry upserted on a CachedArtifactError: the parent entry content,
status and error code copied verbatim, the enhanced details with provenance,
the job runner version and the job revision. -/
def copiedEntry (version : Nat) (p : JobParams) (d : CachedArtifactData) : CacheEntry :=
  { content := d.content
    http_status := d.http_status
    error_code := d.error_code
    details := some (enhanced_details d)
    job_runner_version := version
    dataset_git_revision := some p.revision
    progress := none }

/-- The result of process() (and of run()): the returned boolean, the cache
store after the job, and the trace of events. -/
structure ProcResult where
  result : Bool
  store : CacheStore
  events : List Event
deriving DecidableEq, Repr

/-- JobManager.process: the inner try runs pre_compute, the parallel check,
compute and size validation; the post_compute hook runs in the finally; then
the outcome is dispatched to the except clauses in source order: success
upserts the OK entry and returns true; DatasetNotFoundError writes nothing and
returns false; CachedArtifactError upserts the copied parent entry and returns
false; any other exception is wrapped (kept as is when it is a CustomError,
else as UnexpectedError), upserted, and returns false. -/
def JobManager.process (jr : JobRunnerL) (cache_kind : String) (p : JobParams)
    (content_max_bytes : Nat) (serLen : Content → Nat) (store : CacheStore) : ProcResult :=
  match innerTry jr p content_max_bytes serLen store with
  | (Except.ok res, inner) =>
    { result := true
      store := upsertCache store (keyOf cache_kind p) (okEntry jr p res)
      events := inner ++ Event.postCompute :: [Event.upsert cache_kind p (okEntry jr p res)] }
  | (Except.error Exn.datasetNotFound, inner) =>
    { result := false
      store := store
      events := inner ++ Event.postCompute :: [] }
  | (Except.error (Exn.cachedArtifact d), inner) =>
    { result := false
      store := upsertCache store (keyOf cache_kind p)
        (copiedEntry jr.get_job_runner_version p d)
      events := inner ++ Event.postCompute ::
        [Event.upsert cache_kind p (copiedEntry jr.get_job_runner_version p d)] }
  | (Except.error (Exn.custom e), inner) =>
    { result := false
      store := upsertCache store (keyOf cache_kind p)
        (errorEntry jr.get_job_runner_version p e)
      events := inner ++ Event.postCompute ::
        [Event.upsert cache_kind p (errorEntry jr.get_job_runner_version p e)] }
  | (Except.error (Exn.other msg), inner) =>
    { result := false
      store := upsertCache store (keyOf cache_kind p)
        (errorEntry jr.get_job_runner_version p (UnexpectedError msg))
      events := inner ++ Event.postCompute ::
        [Event.upsert cache_kind p (errorEntry jr.get_job_runner_version p (UnexpectedError msg))] }

/-- Module-level constant of the source: the list of error codes that should
trigger a retry during backfill. -/
def ERROR_CODES_TO_RETRY : List String := ["ClientConnectionError"]

/-- A node of the processing graph: step name, the cache kind it produces, its
current job runner version. -/
structure StepNode where
  name : String
  cache_kind : String
  version : Nat
deriving DecidableEq, Repr

/-- The processing graph configuration, as the list of its steps. -/
abbrev ProcessingGraphL := List StepNode

/-- Priority level of a job, used only to tag emitted job requests. -/
inductive Priority where
  | low
  | normal
  | high
deriving DecidableEq, Repr

/-- A job request emitted by the backfill planner. -/
structure JobRequest where
  dataset : String
  revision : String
  step : String
  priority : Priority
deriving DecidableEq, Repr

/-- The cache key of the artifact a step produces for a dataset (the model uses
dataset-level fan-out; the spec leaves per-step granularity configurable). -/
def stepKey (st : StepNode) (dataset : String) : CacheKey :=
  { kind := st.cache_kind, dataset := dataset, config := none, split := none }

/-- Modelled from the spec: the backfill planner classification of one target
artifact (libcommon DatasetState internals are not under src). Missing, stale
by revision, stale by version, partial progress, and retry-allowlisted errors
are required; fresh entries and non-retryable errors are not. -/
def shouldBackfill (revision : String) (stepVersion : Nat) (retryCodes : List String) :
    Option CacheEntry → Bool
  | none => true
  | some e =>
    if e.dataset_git_revision ≠ some revision then true
    else if e.job_runner_version < stepVersion then true
    else if e.http_status = 200 then
      match e.progress with
      | some pr => decide (pr < 1)
      | none => true
    else
      match e.error_code with
      | some c => retryCodes.contains c
      | none => false

/-- Modelled from the spec: DatasetState(...).backfill() (libcommon, not under
src) walks the processing graph, reads the cache store, and emits the job
requests for every required artifact at the given priority; it recovers
internally from any per-step staleness failure (logs and skips) and performs
no cache write, so it is a total function of the store and graph returning
only the emitted requests. -/
def DatasetState.backfill (dataset revision : String) (graph : ProcessingGraphL)
    (error_codes_to_retry : List String) (priority : Priority)
    (store : CacheStore) : List JobRequest :=
  graph.filterMap fun st =>
    if shouldBackfill revision st.version error_codes_to_retry
        (lookupCache store (stepKey st dataset)) then
      some { dataset := dataset, revision := revision, step := st.name, priority := priority }
    else
      none

/-- JobManager.backfill: evaluates the state of the dataset and backfills the
cache if necessary, always passing the module-level ERROR_CODES_TO_RETRY. -/
def JobManager.backfill (p : JobParams) (graph : ProcessingGraphL) (priority : Priority)
    (store : CacheStore) : List JobRequest :=
  DatasetState.backfill p.dataset p.revision graph ERROR_CODES_TO_RETRY priority store

/-- The result of run(): the returned boolean, the cache store after the job,
the job requests emitted by the backfill invocation, and the event trace. -/
structure RunResult where
  result : Bool
  store : CacheStore
  requests : List JobRequest
  events : List Event
deriving DecidableEq, Repr

/-- JobManager.run: process() inside a try that turns any escaping exception
into a false result (process is total in the model because it recovers every
compute-time failure), then the guaranteed backfill invocation, then the
boolean result is returned. -/
def JobManager.run (jr : JobRunnerL) (cache_kind : String) (p : JobParams)
    (content_max_bytes : Nat) (serLen : Content → Nat) (graph : ProcessingGraphL)
    (priority : Priority) (store : CacheStore) : RunResult :=
  match JobManager.process jr cache_kind p content_max_bytes serLen store with
  | pr =>
    { result := pr.result
      store := pr.store
      requests := JobManager.backfill p graph priority pr.store
      events := pr.events ++ [Event.backfillCall] }

/-- JobManager.set_crashed: writes the synthetic JobManagerCrashedError entry
for the job key through the same upsert mechanism as normal errors. -/
def JobManager.set_crashed (cache_kind : String) (p : JobParams) (version : Nat)
    (message : String) (store : CacheStore) : CacheStore :=
  upsertCache store (keyOf cache_kind p)
    (errorEntry version p (JobManagerCrashedErrorData message))

/-- JobManager.set_exceeded_maximum_duration: writes the synthetic
JobManagerExceededMaximumDurationError entry for the job key through the same
upsert mechanism as normal errors. -/
def JobManager.set_exceeded_maximum_duration (cache_kind : String) (p : JobParams)
    (version : Nat) (message : String) (store : CacheStore) : CacheStore :=
  upsertCache store (keyOf cache_kind p)
    (errorEntry version p (JobManagerExceededMaximumDurationErrorData message))

theorem innerTry_shape (jr : JobRunnerL) (p : JobParams) (content_max_bytes : Nat)
    (serLen : Content → Nat) (store : CacheStore) :
    (innerTry jr p content_max_bytes serLen store).2 = [Event.preCompute] ∨
    (innerTry jr p content_max_bytes serLen store).2 = [Event.preCompute, Event.computeCall] := by
  rcases hpre : jr.pre_compute with e | u
  · left
    simp [innerTry, hpre]
  · rcases hpar : checkParallel p store jr.get_parallel_job_runner with e | u2
    · left
      simp [innerTry, hpre, hpar]
    · rcases hc : jr.compute with e | res
      · right
        simp [innerTry, hpre, hpar, hc]
      · by_cases h : serLen res.content > content_max_bytes
        · right
          simp [innerTry, hpre, hpar, hc, h]
        · right
          simp [innerTry, hpre, hpar, hc, h]

theorem process_shape (jr : JobRunnerL) (cache_kind : String) (p : JobParams)
    (content_max_bytes : Nat) (serLen : Content → Nat) (store : CacheStore) :
    ∃ inner tail,
      (JobManager.process jr cache_kind p content_max_bytes serLen store).events =
        inner ++ Event.postCompute :: tail ∧
      (inner = [Event.preCompute] ∨ inner = [Event.preCompute, Event.computeCall]) ∧
      (tail = [] ∨ ∃ k q e, tail = [Event.upsert k q e]) := by
  rcases hi : innerTry jr p content_max_bytes serLen store with ⟨outcome, inner⟩
  have hshape := innerTry_shape jr p content_max_bytes serLen store
  rw [hi] at hshape
  simp only at hshape
  rcases outcome with e | res
  · rcases e with _ | d | ce | msg
    · exact ⟨inner, [], by simp [JobManager.process, hi], hshape, Or.inl rfl⟩
    · exact ⟨inner,
        [Event.upsert cache_kind p (copiedEntry jr.get_job_runner_version p d)],
        by simp [JobManager.process, hi], hshape,
        Or.inr ⟨cache_kind, p, copiedEntry jr.get_job_runner_version p d, rfl⟩⟩
    · exact ⟨inner,
        [Event.upsert cache_kind p (errorEntry jr.get_job_runner_version p ce)],
        by simp [JobManager.process, hi], hshape,
        Or.inr ⟨cache_kind, p, errorEntry jr.get_job_runner_version p ce, rfl⟩⟩
    · exact ⟨inner,
        [Event.upsert cache_kind p (errorEntry jr.get_job_runner_version p (UnexpectedError msg))],
        by simp [JobManager.process, hi], hshape,
        Or.inr ⟨cache_kind, p, errorEntry jr.get_job_runner_version p (UnexpectedError msg), rfl⟩⟩
  · exact ⟨inner, [Event.upsert cache_kind p (okEntry jr p res)],
      by simp [JobManager.process, hi], hshape,
      Or.inr ⟨cache_kind, p, okEntry jr p res, rfl⟩⟩

theorem backfillCall_not_in_process_events (jr : JobRunnerL) (cache_kind : String)
    (p : JobParams) (content_max_bytes : Nat) (serLen : Content → Nat) (store : CacheStore) :
    Event.backfillCall ∉
      (JobManager.process jr cache_kind p content_max_bytes serLen store).events := by
  obtain ⟨inner, tail, hev, hin, htail⟩ :=
    process_shape jr cache_kind p content_max_bytes serLen store
  rw [hev]
  rcases hin with h | h <;> rcases htail with h2 | ⟨k, q, e, h2⟩ <;> simp [h, h2]

/-- Claim C7: once pre_compute has been entered, the post_compute hook is
invoked on every exit path of process - success, parallel short-circuit, size
validation failure, or any exception from pre_compute, the parallel check,
compute or serialization - before the outcome is recorded: the event trace is
always a prefix starting with the pre-compute call and containing no upsert
and no other post-compute call, then the single post-compute call, then only
upsert events. -/
theorem C7_post_compute_on_every_exit_path (jr : JobRunnerL) (cache_kind : String)
    (p : JobParams) (content_max_bytes : Nat) (serLen : Content → Nat) (store : CacheStore) :
    ∃ inner tail,
      (JobManager.process jr cache_kind p content_max_bytes serLen store).events =
        inner ++ Event.postCompute :: tail ∧
      inner.head? = some Event.preCompute ∧
      (∀ ev ∈ inner, ev.isUpsert = false ∧ ev ≠ Event.postCompute) ∧
      (∀ ev ∈ tail, ev.isUpsert = true) := by
  obtain ⟨inner, tail, hev, hin, htail⟩ :=
    process_shape jr cache_kind p content_max_bytes serLen store
  refine ⟨inner, tail, hev, ?_, ?_, ?_⟩
  · rcases hin with h | h <;> simp [h]
  · rcases hin with h | h <;> simp [h, Event.isUpsert]
  · rcases htail with h | ⟨k, q, e, h⟩ <;> simp [h, Event.isUpsert]

/-- Claim C1: run always invokes backfill exactly once, after the processing
of the job (success or any error path); process recovers every compute-time
failure internally (it is total and returns a boolean in the model), run
returns exactly the boolean computed by process, and the backfill invocation
(modelled from the spec as total: the planner logs and skips internally) does
not change that returned result. -/
theorem C1_run_backfill_once_and_boolean (jr : JobRunnerL) (cache_kind : String)
    (p : JobParams) (content_max_bytes : Nat) (serLen : Content → Nat)
    (graph : ProcessingGraphL) (priority : Priority) (store : CacheStore) :
    (JobManager.run jr cache_kind p content_max_bytes serLen graph priority store).result =
      (JobManager.process jr cache_kind p content_max_bytes serLen store).result ∧
    (JobManager.run jr cache_kind p content_max_bytes serLen graph priority store).events =
      (JobManager.process jr cache_kind p content_max_bytes serLen store).events ++
        [Event.backfillCall] ∧
    (JobManager.run jr cache_kind p content_max_bytes serLen graph priority store).events.count
      Event.backfillCall = 1 := by
  refine ⟨rfl, rfl, ?_⟩
  have h0 : (JobManager.process jr cache_kind p content_max_bytes serLen store).events.count
      Event.backfillCall = 0 :=
    List.count_eq_zero.mpr
      (backfillCall_not_in_process_events jr cache_kind p content_max_bytes serLen store)
  show ((JobManager.process jr cache_kind p content_max_bytes serLen store).events ++
      [Event.backfillCall]).count Event.backfillCall = 1
  simp [List.count_append, h0]

/-- Claim C3: when compute fails with a CachedArtifactError from a required
parent artifact, process upserts a cache entry whose content, HTTP status and
error code equal the parent entry values verbatim, with the enhanced details
carrying copied_from_artifact provenance identifying the parent artifact, and
the job reports failure. -/
theorem C3_cached_artifact_error_copied (jr : JobRunnerL) (cache_kind : String)
    (p : JobParams) (content_max_bytes : Nat) (serLen : Content → Nat)
    (graph : ProcessingGraphL) (priority : Priority) (store : CacheStore)
    (d : CachedArtifactData)
    (hpre : jr.pre_compute = Except.ok ())
    (hpar : checkParallel p store jr.get_parallel_job_runner = Except.ok ())
    (hcomp : jr.compute = Except.error (Exn.cachedArtifact d)) :
    (JobManager.process jr cache_kind p content_max_bytes serLen store).result = false ∧
    (JobManager.process jr cache_kind p content_max_bytes serLen store).store =
      upsertCache store (keyOf cache_kind p) (copiedEntry jr.get_job_runner_version p d) ∧
    lookupCache (JobManager.process jr cache_kind p content_max_bytes serLen store).store
      (keyOf cache_kind p) = some (copiedEntry jr.get_job_runner_version p d) ∧
    (copiedEntry jr.get_job_runner_version p d).content = d.content ∧
    (copiedEntry jr.get_job_runner_version p d).http_status = d.http_status ∧
    (copiedEntry jr.get_job_runner_version p d).error_code = d.error_code ∧
    (copiedEntry jr.get_job_runner_version p d).details =
      some (Details.withProvenance d.details d.artifact) ∧
    (JobManager.run jr cache_kind p content_max_bytes serLen graph priority store).result =
      false := by
  have hin : innerTry jr p content_max_bytes serLen store =
      (Except.error (Exn.cachedArtifact d), [Event.preCompute, Event.computeCall]) := by
    simp [innerTry, hpre, hpar, hcomp]
  refine ⟨?_, ?_, ?_, rfl, rfl, rfl, rfl, ?_⟩
  · simp [JobManager.process, hin]
  · simp [JobManager.process, hin]
  · simp [JobManager.process, hin, lookupCache_upsert_self]
  · simp [JobManager.run, JobManager.process, hin]

/-- Job params used by the concrete witnesses. -/
def jpW : JobParams := { dataset := "ds", revision := "rev1", config := none, split := none }

/-- Processing graph used by the concrete witnesses. -/
def graphW : ProcessingGraphL := [{ name := "stepA", cache_kind := "kindA", version := 1 }]

/-- Concrete cached-artifact error data for the C3 witness. -/
def cadW : CachedArtifactData :=
  { artifact := { kind := "parentKind", dataset := "ds", config := none, split := none }
    content := "parent error content"
    http_status := 500
    error_code := some "ParentError"
    details := "parent details" }

/-- Concrete job runner whose compute raises a CachedArtifactError. -/
def jrC3 : JobRunnerL :=
  { pre_compute := Except.ok ()
    get_parallel_job_runner := none
    compute := Except.error (Exn.cachedArtifact cadW)
    get_job_runner_version := 4 }

/-- Witness for claim C3 at a concrete input. -/
theorem C3_cached_artifact_error_copied_witness :
    (JobManager.process jrC3 "kindA" jpW 1000 String.length []).result = false ∧
    (JobManager.process jrC3 "kindA" jpW 1000 String.length []).store =
      upsertCache [] (keyOf "kindA" jpW) (copiedEntry jrC3.get_job_runner_version jpW cadW) ∧
    lookupCache (JobManager.process jrC3 "kindA" jpW 1000 String.length []).store
      (keyOf "kindA" jpW) = some (copiedEntry jrC3.get_job_runner_version jpW cadW) ∧
    (copiedEntry jrC3.get_job_runner_version jpW cadW).content = cadW.content ∧
    (copiedEntry jrC3.get_job_runner_version jpW cadW).http_status = cadW.http_status ∧
    (copiedEntry jrC3.get_job_runner_version jpW cadW).error_code = cadW.error_code ∧
    (copiedEntry jrC3.get_job_runner_version jpW cadW).details =
      some (Details.withProvenance cadW.details cadW.artifact) ∧
    (JobManager.run jrC3 "kindA" jpW 1000 String.length graphW Priority.normal []).result =
      false :=
  C3_cached_artifact_error_copied jrC3 "kindA" jpW 1000 String.length graphW
    Priority.normal [] cadW rfl rfl rfl

/-- Claim C4: when compute fails with DatasetNotFoundError, process writes no
cache entry at all (the store is unchanged and the trace holds no upsert
event) and both process and run report failure. -/
theorem C4_dataset_not_found_no_cache_write (jr : JobRunnerL) (cache_kind : String)
    (p : JobParams) (content_max_bytes : Nat) (serLen : Content → Nat)
    (graph : ProcessingGraphL) (priority : Priority) (store : CacheStore)
    (hpre : jr.pre_compute = Except.ok ())
    (hpar : checkParallel p store jr.get_parallel_job_runner = Except.ok ())
    (hcomp : jr.compute = Except.error Exn.datasetNotFound) :
    (JobManager.process jr cache_kind p content_max_bytes serLen store).store = store ∧
    (∀ ev ∈ (JobManager.process jr cache_kind p content_max_bytes serLen store).events,
      ev.isUpsert = false) ∧
    (JobManager.process jr cache_kind p content_max_bytes serLen store).result = false ∧
    (JobManager.run jr cache_kind p content_max_bytes serLen graph priority store).result =
      false := by
  have hin : innerTry jr p content_max_bytes serLen store =
      (Except.error Exn.datasetNotFound, [Event.preCompute, Event.computeCall]) := by
    simp [innerTry, hpre, hpar, hcomp]
  refine ⟨?_, ?_, ?_, ?_⟩
  · simp [JobManager.process, hin]
  · simp [JobManager.process, hin, Event.isUpsert]
  · simp [JobManager.process, hin]
  · simp [JobManager.run, JobManager.process, hin]

/-- Concrete job runner whose compute raises DatasetNotFoundError. -/
def jrC4 : JobRunnerL :=
  { pre_compute := Except.ok ()
    get_parallel_job_runner := none
    compute := Except.error Exn.datasetNotFound
    get_job_runner_version := 4 }

/-- Witness for claim C4 at a concrete input. -/
theorem C4_dataset_not_found_no_cache_write_witness :
    (JobManager.process jrC4 "kindA" jpW 1000 String.length []).store = [] ∧
    (∀ ev ∈ (JobManager.process jrC4 "kindA" jpW 1000 String.length []).events,
      ev.isUpsert = false) ∧
    (JobManager.process jrC4 "kindA" jpW 1000 String.length []).result = false ∧
    (JobManager.run jrC4 "kindA" jpW 1000 String.length graphW Priority.normal []).result =
      false :=
  C4_dataset_not_found_no_cache_write jrC4 "kindA" jpW 1000 String.length graphW
    Priority.normal [] rfl rfl rfl

/-- Claim C5: when the serialized computed content exceeds the configured
maximum, process upserts a cache entry carrying the TooBigContentError code
with the configured limit inside the message, whose stored content is that
fixed error message and not the oversized computed content, and the job
reports failure. -/
theorem C5_too_big_content (jr : JobRunnerL) (cache_kind : String) (p : JobParams)
    (content_max_bytes : Nat) (serLen : Content → Nat) (graph : ProcessingGraphL)
    (priority : Priority) (store : CacheStore) (res : JobResult)
    (hpre : jr.pre_compute = Except.ok ())
    (hpar : checkParallel p store jr.get_parallel_job_runner = Except.ok ())
    (hcomp : jr.compute = Except.ok res)
    (hsize : serLen res.content > content_max_bytes) :
    (JobManager.process jr cache_kind p content_max_bytes serLen store).result = false ∧
    (JobManager.process jr cache_kind p content_max_bytes serLen store).store =
      upsertCache store (keyOf cache_kind p)
        (errorEntry jr.get_job_runner_version p (TooBigContentErrorData content_max_bytes)) ∧
    lookupCache (JobManager.process jr cache_kind p content_max_bytes serLen store).store
      (keyOf cache_kind p) =
      some (errorEntry jr.get_job_runner_version p (TooBigContentErrorData content_max_bytes)) ∧
    (errorEntry jr.get_job_runner_version p (TooBigContentErrorData content_max_bytes)).error_code =
      some "TooBigContentError" ∧
    (errorEntry jr.get_job_runner_version p (TooBigContentErrorData content_max_bytes)).content =
      "The computed response content exceeds the supported size in bytes (" ++
        toString content_max_bytes ++ ")." ∧
    (errorEntry jr.get_job_runner_version p (TooBigContentErrorData content_max_bytes)).progress =
      none ∧
    (JobManager.run jr cache_kind p content_max_bytes serLen graph priority store).result =
      false := by
  have hin : innerTry jr p content_max_bytes serLen store =
      (Except.error (Exn.custom (TooBigContentErrorData content_max_bytes)),
        [Event.preCompute, Event.computeCall]) := by
    simp [innerTry, hpre, hpar, hcomp, hsize]
  refine ⟨?_, ?_, ?_, rfl, rfl, rfl, ?_⟩
  · simp [JobManager.process, hin]
  · simp [JobManager.process, hin]
  · simp [JobManager.process, hin, lookupCache_upsert_self]
  · simp [JobManager.run, JobManager.process, hin]

/-- Concrete job runner computing a content of serialized length 30. -/
def jrC5 : JobRunnerL :=
  { pre_compute := Except.ok ()
    get_parallel_job_runner := none
    compute := Except.ok { content := "012345678901234567890123456789", progress := some 1 }
    get_job_runner_version := 4 }

/-- Witness for claim C5 at a concrete input (limit 10, content length 30). -/
theorem C5_too_big_content_witness :
    (JobManager.process jrC5 "kindA" jpW 10 String.length []).result = false ∧
    (JobManager.process jrC5 "kindA" jpW 10 String.length []).store =
      upsertCache [] (keyOf "kindA" jpW)
        (errorEntry jrC5.get_job_runner_version jpW (TooBigContentErrorData 10)) ∧
    lookupCache (JobManager.process jrC5 "kindA" jpW 10 String.length []).store
      (keyOf "kindA" jpW) =
      some (errorEntry jrC5.get_job_runner_version jpW (TooBigContentErrorData 10)) ∧
    (errorEntry jrC5.get_job_runner_version jpW (TooBigContentErrorData 10)).error_code =
      some "TooBigContentError" ∧
    (errorEntry jrC5.get_job_runner_version jpW (TooBigContentErrorData 10)).content =
      "The computed response content exceeds the supported size in bytes (" ++
        toString 10 ++ ")." ∧
    (errorEntry jrC5.get_job_runner_version jpW (TooBigContentErrorData 10)).progress = none ∧
    (JobManager.run jrC5 "kindA" jpW 10 String.length graphW Priority.normal []).result =
      false :=
  C5_too_big_content jrC5 "kindA" jpW 10 String.length graphW Priority.normal []
    { content := "012345678901234567890123456789", progress := some 1 }
    rfl rfl rfl (by decide)

/-- Claim C6: when compute succeeds and the content passes size validation,
process upserts a cache entry with status OK, the computed content, the job
runner version, the job revision and the computed progress, and both process
and run report success. -/
theorem C6_success_cache_upsert (jr : JobRunnerL) (cache_kind : String) (p : JobParams)
    (content_max_bytes : Nat) (serLen : Content → Nat) (graph : ProcessingGraphL)
    (priority : Priority) (store : CacheStore) (res : JobResult)
    (hpre : jr.pre_compute = Except.ok ())
    (hpar : checkParallel p store jr.get_parallel_job_runner = Except.ok ())
    (hcomp : jr.compute = Except.ok res)
    (hsize : ¬ serLen res.content > content_max_bytes) :
    (JobManager.process jr cache_kind p content_max_bytes serLen store).result = true ∧
    (JobManager.process jr cache_kind p content_max_bytes serLen store).store =
      upsertCache store (keyOf cache_kind p) (okEntry jr p res) ∧
    lookupCache (JobManager.process jr cache_kind p content_max_bytes serLen store).store
      (keyOf cache_kind p) = some (okEntry jr p res) ∧
    okEntry jr p res =
      { content := res.content
        http_status := 200
        error_code := none
        details := none
        job_runner_version := jr.get_job_runner_version
        dataset_git_revision := some p.revision
        progress := res.progress } ∧
    (JobManager.run jr cache_kind p content_max_bytes serLen graph priority store).result =
      true := by
  have hin : innerTry jr p content_max_bytes serLen store =
      (Except.ok res, [Event.preCompute, Event.computeCall]) := by
    simp [innerTry, hpre, hpar, hcomp, hsize]
  refine ⟨?_, ?_, ?_, rfl, ?_⟩
  · simp [JobManager.process, hin]
  · simp [JobManager.process, hin]
  · simp [JobManager.process, hin, lookupCache_upsert_self]
  · simp [JobManager.run, JobManager.process, hin]

/-- Concrete successfully computing job runner. -/
def jrC6 : JobRunnerL :=
  { pre_compute := Except.ok ()
    get_parallel_job_runner := none
    compute := Except.ok { content := "ok content", progress := some 1 }
    get_job_runner_version := 7 }

/-- Witness for claim C6 at a concrete input. -/
theorem C6_success_cache_upsert_witness :
    (JobManager.process jrC6 "kindA" jpW 1000 String.length []).result = true ∧
    (JobManager.process jrC6 "kindA" jpW 1000 String.length []).store =
      upsertCache [] (keyOf "kindA" jpW)
        (okEntry jrC6 jpW { content := "ok content", progress := some 1 }) ∧
    lookupCache (JobManager.process jrC6 "kindA" jpW 1000 String.length []).store
      (keyOf "kindA" jpW) =
      some (okEntry jrC6 jpW { content := "ok content", progress := some 1 }) ∧
    okEntry jrC6 jpW { content := "ok content", progress := some 1 } =
      { content := JobResult.content { content := "ok content", progress := some 1 }
        http_status := 200
        error_code := none
        details := none
        job_runner_version := jrC6.get_job_runner_version
        dataset_git_revision := some jpW.revision
        progress := JobResult.progress { content := "ok content", progress := some 1 } } ∧
    (JobManager.run jrC6 "kindA" jpW 1000 String.length graphW Priority.normal []).result =
      true :=
  C6_success_cache_upsert jrC6 "kindA" jpW 1000 String.length graphW Priority.normal []
    { content := "ok content", progress := some 1 } rfl rfl rfl (by decide)

/-- Fresh parallel cache entry for the C2 concrete input: status OK, version 3,
progress 1.0, same revision as the job. -/
def parallelEntryC2 : CacheEntry :=
  { content := "parallel content"
    http_status := 200
    error_code := none
    details := none
    job_runner_version := 3
    dataset_git_revision := some "rev1"
    progress := some 1 }

/-- Store holding the fresh parallel entry under the parallel cache kind. -/
def storeC2 : CacheStore :=
  [({ kind := "kindB", dataset := "ds", config := none, split := none }, parallelEntryC2)]

/-- Concrete job runner whose step has the parallel counterpart kindB at
version 3. -/
def jrC2 : JobRunnerL :=
  { pre_compute := Except.ok ()
    get_parallel_job_runner := some { job_type := "kindB", job_runner_version := 3 }
    compute := Except.ok { content := "computed", progress := some 1 }
    get_job_runner_version := 5 }

/-- Claim C2 counterexample: with a fresh (status OK, expected version,
progress 1.0, same revision) entry under the parallel counterpart kind, the
job indeed performs no compute call, but contrary to the claim it does write a
new cache entry for its own key and returns false: the raised
ResponseAlreadyComputedError falls through to the generic exception handler of
process, which upserts it and reports failure. -/
theorem C2_parallel_short_circuit_counterexample :
    Event.computeCall ∉
      (JobManager.process jrC2 "kindA" jpW 1000 String.length storeC2).events ∧
    (JobManager.process jrC2 "kindA" jpW 1000 String.length storeC2).store ≠ storeC2 ∧
    lookupCache (JobManager.process jrC2 "kindA" jpW 1000 String.length storeC2).store
      (keyOf "kindA" jpW) ≠ none ∧
    (JobManager.process jrC2 "kindA" jpW 1000 String.length storeC2).result = false := by
  refine ⟨by decide, by decide, by decide, by decide⟩

/-- Claim C2 (amended): when the designated parallel counterpart step holds a
cache entry for the same job params with status OK, the expected parallel
version, progress 1.0 and the job revision, process performs no compute call,
but it does write a cache entry: the ResponseAlreadyComputedError raised by
the check is handled by the generic error clause, which upserts it for the
job key, and process returns false. -/
theorem C2_parallel_short_circuit_amended (jr : JobRunnerL) (cache_kind : String)
    (p : JobParams) (content_max_bytes : Nat) (serLen : Content → Nat)
    (store : CacheStore) (info : ParallelRunnerInfo) (er : CacheEntry)
    (hpre : jr.pre_compute = Except.ok ())
    (hpar : jr.get_parallel_job_runner = some info)
    (hlook : lookupCache store (keyOf info.job_type p) = some er)
    (hok : er.http_status = 200)
    (hver : er.job_runner_version = info.job_runner_version)
    (hprog : er.progress = some 1)
    (hrev : er.dataset_git_revision = some p.revision) :
    Event.computeCall ∉
      (JobManager.process jr cache_kind p content_max_bytes serLen store).events ∧
    (JobManager.process jr cache_kind p content_max_bytes serLen store).result = false ∧
    (JobManager.process jr cache_kind p content_max_bytes serLen store).store =
      upsertCache store (keyOf cache_kind p)
        (errorEntry jr.get_job_runner_version p
          (ResponseAlreadyComputedErrorData info.job_type)) := by
  have hcheck : checkParallel p store jr.get_parallel_job_runner =
      Except.error (Exn.custom (ResponseAlreadyComputedErrorData info.job_type)) := by
    simp [checkParallel, hpar, JobManager.raise_if_parallel_response_exists, hlook,
      hok, hver, hprog, hrev]
  have hin : innerTry jr p content_max_bytes serLen store =
      (Except.error (Exn.custom (ResponseAlreadyComputedErrorData info.job_type)),
        [Event.preCompute]) := by
    simp [innerTry, hpre, hcheck]
  refine ⟨?_, ?_, ?_⟩
  · simp [JobManager.process, hin]
  · simp [JobManager.process, hin]
  · simp [JobManager.process, hin]

/-- Witness for the amended claim C2 at a concrete input. -/
theorem C2_parallel_short_circuit_amended_witness :
    Event.computeCall ∉
      (JobManager.process jrC2 "kindA" jpW 1000 String.length storeC2).events ∧
    (JobManager.process jrC2 "kindA" jpW 1000 String.length storeC2).result = false ∧
    (JobManager.process jrC2 "kindA" jpW 1000 String.length storeC2).store =
      upsertCache storeC2 (keyOf "kindA" jpW)
        (errorEntry jrC2.get_job_runner_version jpW
          (ResponseAlreadyComputedErrorData "kindB")) :=
  C2_parallel_short_circuit_amended jrC2 "kindA" jpW 1000 String.length storeC2
    { job_type := "kindB", job_runner_version := 3 } parallelEntryC2
    rfl rfl (by decide) rfl rfl rfl rfl

/-- Claim C8: set_crashed and set_exceeded_maximum_duration each write a
synthetic error cache entry for the job key through the same upsert mechanism
and entry builder as the normal error paths, carrying two distinct error
codes, the producing job runner version and the job revision. -/
theorem C8_crash_and_timeout_entries (cache_kind : String) (p : JobParams) (version : Nat)
    (msgC msgE : String) (storeC storeE : CacheStore) :
    JobManager.set_crashed cache_kind p version msgC storeC =
      upsertCache storeC (keyOf cache_kind p)
        (errorEntry version p (JobManagerCrashedErrorData msgC)) ∧
    JobManager.set_exceeded_maximum_duration cache_kind p version msgE storeE =
      upsertCache storeE (keyOf cache_kind p)
        (errorEntry version p (JobManagerExceededMaximumDurationErrorData msgE)) ∧
    lookupCache (JobManager.set_crashed cache_kind p version msgC storeC)
      (keyOf cache_kind p) = some (errorEntry version p (JobManagerCrashedErrorData msgC)) ∧
    lookupCache (JobManager.set_exceeded_maximum_duration cache_kind p version msgE storeE)
      (keyOf cache_kind p) =
      some (errorEntry version p (JobManagerExceededMaximumDurationErrorData msgE)) ∧
    (errorEntry version p (JobManagerCrashedErrorData msgC)).error_code =
      some "JobManagerCrashedError" ∧
    (errorEntry version p (JobManagerExceededMaximumDurationErrorData msgE)).error_code =
      some "JobManagerExceededMaximumDurationError" ∧
    (errorEntry version p (JobManagerCrashedErrorData msgC)).error_code ≠
      (errorEntry version p (JobManagerExceededMaximumDurationErrorData msgE)).error_code ∧
    (errorEntry version p (JobManagerCrashedErrorData msgC)).job_runner_version = version ∧
    (errorEntry version p (JobManagerExceededMaximumDurationErrorData msgE)).job_runner_version =
      version ∧
    (errorEntry version p (JobManagerCrashedErrorData msgC)).dataset_git_revision =
      some p.revision ∧
    (errorEntry version p (JobManagerExceededMaximumDurationErrorData msgE)).dataset_git_revision =
      some p.revision :=
  ⟨rfl, rfl, lookupCache_upsert_self _ _ _, lookupCache_upsert_self _ _ _, rfl, rfl,
    by simp [errorEntry, JobManagerCrashedErrorData,
      JobManagerExceededMaximumDurationErrorData],
    rfl, rfl, rfl, rfl⟩

/-- Claim C9: the set of job requests emitted by the backfill planner is a
deterministic function of the cache store state (as read through the step
keys) and the processing graph: two invocations over stores that agree on
every step key of the graph emit the same job request list, so invoking
backfill twice in succession with no intervening cache writes (in particular
with the identical store, since the planner itself writes nothing) emits the
same set both times. -/
theorem C9_backfill_deterministic_idempotent (dataset revision : String)
    (graph : ProcessingGraphL) (error_codes_to_retry : List String) (priority : Priority)
    (s1 s2 : CacheStore)
    (h : ∀ st ∈ graph, lookupCache s2 (stepKey st dataset) = lookupCache s1 (stepKey st dataset)) :
    DatasetState.backfill dataset revision graph error_codes_to_retry priority s2 =
      DatasetState.backfill dataset revision graph error_codes_to_retry priority s1 := by
  unfold DatasetState.backfill
  exact List.filterMap_congr fun st hm => by rw [h st hm]

/-- Cache store used by the C9 witness: stepA is fresh, so the planner emits
nothing for it on either of the two successive invocations. -/
def storeC9 : CacheStore :=
  [({ kind := "kindA", dataset := "ds", config := none, split := none },
    { content := "c"
      http_status := 200
      error_code := none
      details := none
      job_runner_version := 1
      dataset_git_revision := some "rev1"
      progress := some 1 })]

/-- Witness for claim C9: two successive invocations over the same concrete
store emit the same job request list. -/
theorem C9_backfill_deterministic_idempotent_witness :
    DatasetState.backfill "ds" "rev1" graphW ERROR_CODES_TO_RETRY Priority.normal storeC9 =
      DatasetState.backfill "ds" "rev1" graphW ERROR_CODES_TO_RETRY Priority.normal storeC9 :=
  C9_backfill_deterministic_idempotent "ds" "rev1" graphW ERROR_CODES_TO_RETRY
    Priority.normal storeC9 storeC9 (fun _ _ => rfl)

/-- Claim C10: the retry allowlist is the module-level constant
ERROR_CODES_TO_RETRY, equal to the single code ClientConnectionError, and
every backfill invocation performed by the Job Manager passes exactly that
constant: JobManager.backfill takes no allowlist argument and always calls the
planner with it. -/
theorem C10_fixed_retry_allowlist (p : JobParams) (graph : ProcessingGraphL)
    (priority : Priority) (store : CacheStore) :
    ERROR_CODES_TO_RETRY = ["ClientConnectionError"] ∧
    JobManager.backfill p graph priority store =
      DatasetState.backfill p.dataset p.revision graph ["ClientConnectionError"]
        priority store :=
  ⟨rfl, rfl⟩
